import Mathlib

/-!
Verification of the risk-scoring and anomaly-detection engine of the
SQL-audit insider-threat analyzer (`utils/risk_engine.py`,
`utils/anomaly_detector.py`, `utils/admin_config.py`).

The Python code is shallowly embedded: strings are lists of characters,
pandas cells are an explicit sum type (missing / string / non-string
value), timestamps are minutes since a Monday 00:00 epoch, and Python
exceptions inside a `try` block become an `Except Unit` result, the
enclosing handler turning an error into the documented fallback value.
Python float arithmetic in the scorer is carried out in `ℚ`; every
quantity the scorer manipulates is a small integer combined with decimal
constants, so the rational computation mirrors the float one on all the
properties proved here (floors, clamps and coarse comparisons).
-/

/-- Characters of a Python `str`. -/
abbrev Str := List Char

/-- Python `str.upper()` (ASCII, which covers every string the engine
compares against). -/
def upperList (s : Str) : Str := s.map Char.toUpper

/-- Python `str.lower()`. -/
def lowerList (s : Str) : Str := s.map Char.toLower

/-- Whitespace stripped by Python `str.strip()`. -/
def isWsChar (c : Char) : Bool := c = ' ' || c = '\t' || c = '\n' || c = '\r'

/-- Python `str.strip()`: drop whitespace from both ends. -/
def stripList (s : Str) : Str :=
  ((s.dropWhile isWsChar).reverse.dropWhile isWsChar).reverse

/-- Boolean "p is a prefix of s" (Python `str.startswith`). -/
def isPrefixOfB : Str → Str → Bool
  | [], _ => true
  | _ :: _, [] => false
  | a :: as, b :: bs => a == b && isPrefixOfB as bs

/-- Boolean substring containment: Python `pat in s` on strings. -/
def containsB (s pat : Str) : Bool :=
  isPrefixOfB pat s ||
    match s with
    | [] => false
    | _ :: t => containsB t pat

/-- Python dict `.get(key, default)` over an insertion-ordered
association list. -/
def dictGet (d : List (Str × Nat)) (k : Str) (dflt : Nat) : Nat :=
  match d with
  | [] => dflt
  | (a, w) :: rest => if a == k then w else dictGet rest k dflt

/-- One pandas cell of an object column: missing (`NaN`), a string, or a
present value that is neither (e.g. a number); calling a string method on
the latter raises. The tag distinguishes different such values under
Python `==`. -/
inductive Cell where
  | na : Cell
  | str : Str → Cell
  | bad : Nat → Cell
deriving DecidableEq

/-- Whether the cell is a non-null non-string value. -/
def Cell.isBad : Cell → Bool
  | .bad _ => true
  | _ => false

/-- Python `==` on two cells: `NaN == x` is `False` for every `x`
(including `NaN`), strings compare by content, values of different kinds
are unequal. -/
def cellEq : Cell → Cell → Bool
  | .str a, .str b => a == b
  | .bad i, .bad j => i == j
  | _, _ => false

/-- Python `!=` on two cells; in particular `NaN != NaN` is `True`. -/
def cellNe (a b : Cell) : Bool := !cellEq a b

/-- Minutes since a Monday 00:00 epoch. -/
abbrev Timestamp := Nat

/-- Python `datetime.weekday()`: Monday = 0 … Sunday = 6. -/
def tsWeekday (t : Timestamp) : Nat := (t / 1440) % 7

/-- Time of day in minutes. -/
def tsTimeOfDay (t : Timestamp) : Nat := t % 1440

/-- The `_time` cell: missing (`NaT`), a parsed timestamp, a raw string
(together with what `pd.to_datetime` would yield for it, `none` when it
does not parse), or a non-datetime non-string value on which datetime
methods raise. -/
inductive TimeCell where
  | na : TimeCell
  | ts : Timestamp → TimeCell
  | strT : Option Timestamp → TimeCell
  | bad : TimeCell
deriving DecidableEq

/-- One row of the audit log, with the columns the engine reads.
`Statement` and `Accessed_Obj` are only ever passed through `str(...)`,
which never raises, so they are modelled as present-or-missing strings;
the cells on which the engine calls string methods directly keep the
full three-way `Cell` type. -/
structure Event where
  Statement : Option Str
  _time : TimeCell
  MS_Context : Cell
  Accessed_Obj : Option Str
  OS_User : Cell
  Exec_User : Cell
  Program : Cell
  DB_Name : Cell
deriving DecidableEq

/-- An event whose fallible fields are well typed (no cell on which a
string/datetime method would raise), i.e. an event as described by the
spec's data model, where ingestion guarantees fields are
present-but-possibly-empty strings, never type-mismatched. -/
def Event.wellFormed (r : Event) : Prop :=
  r.MS_Context.isBad = false ∧ r.OS_User.isBad = false ∧
    r.Program.isBad = false ∧ r._time ≠ TimeCell.bad

instance (r : Event) : Decidable r.wellFormed := by
  unfold Event.wellFormed; infer_instance

/-- The `RiskEngine.__init__` state (`risk_engine.py` lines 6-37): the SQL
operation weights in dict insertion order, the off-hours window and the
context keyword lists. (`weekend_multiplier` is set by `__init__` but
never read by any method, so it is not carried.) -/
structure RiskEngine where
  sql_operation_weights : List (Str × Nat)
  off_hours_start : Nat
  off_hours_end : Nat
  high_risk_keywords : List Str
  low_risk_keywords : List Str

/-- The engine exactly as `RiskEngine.__init__` builds it; this is the
only engine `main.py` ever constructs (it passes no configuration in). -/
def riskEngineInit : RiskEngine where
  sql_operation_weights :=
    [("DELETE".toList, 45), ("DROP".toList, 50), ("ALTER".toList, 35),
     ("UPDATE".toList, 30), ("INSERT".toList, 15), ("GRANT".toList, 40),
     ("REVOKE".toList, 35), ("SELECT *".toList, 25), ("TRUNCATE".toList, 50),
     ("CREATE".toList, 15), ("SELECT".toList, 5)]
  off_hours_start := 18 * 60
  off_hours_end := 8 * 60
  high_risk_keywords :=
    ["unauthorized".toList, "emergency".toList, "bypass".toList,
     "override".toList, "manual".toList, "temp".toList, "temporary".toList,
     "hotfix".toList, "urgent".toList, "critical".toList]
  low_risk_keywords :=
    ["scheduled".toList, "approved".toList, "maintenance".toList,
     "routine".toList, "standard".toList, "automated".toList,
     "planned".toList, "regular".toList]

/-- The `for operation, weight in self.sql_operation_weights.items()`
loop of `get_sql_operation_risk`: first key contained as a substring
wins, `5` when none is. -/
def opLoop (ws : List (Str × Nat)) (u : Str) : Nat :=
  match ws with
  | [] => 5
  | (op, w) :: rest => if containsB u op then w else opLoop rest u

/-- The `RiskEngine.get_sql_operation_risk` (lines 77-97). The argument is
`none` for a missing (`NaN`) statement. -/
def get_sql_operation_risk (eng : RiskEngine) (statement : Option Str) : Nat :=
  match statement with
  | none => 10
  | some s =>
    if s.isEmpty then 10
    else
      let u := stripList (upperList s)
      if containsB u "SELECT *".toList then
        dictGet eng.sql_operation_weights "SELECT *".toList 20
      else if (containsB u "DELETE".toList || containsB u "UPDATE".toList) &&
          !containsB u "WHERE".toList then
        min (dictGet eng.sql_operation_weights
          (if containsB u "DELETE".toList then "DELETE".toList else "UPDATE".toList) 20 + 15) 50
      else
        opLoop eng.sql_operation_weights u

/-- Timing risk for a genuine timestamp (`get_time_risk` lines 111-126):
+10 on a weekend, +15 in the off-hours window (which wraps midnight),
+10 between 00:00 and 05:00, capped at 35. -/
def timeRiskOf (eng : RiskEngine) (t : Timestamp) : Nat :=
  let base :=
    (if 5 ≤ tsWeekday t then 10 else 0) +
    (if eng.off_hours_start ≤ tsTimeOfDay t || tsTimeOfDay t ≤ eng.off_hours_end
      then 15 else 0) +
    (if tsTimeOfDay t ≤ 5 * 60 then 10 else 0)
  min base 35

/-- The `RiskEngine.get_time_risk` (lines 99-126) run under the scorer's
`try`: `NaT` yields the default 5, a string is parsed (`pd.to_datetime`)
with failures caught locally into the default 5, a non-datetime
non-string value raises at `.weekday()`. -/
def get_time_risk_run (eng : RiskEngine) (t : TimeCell) : Except Unit Nat :=
  match t with
  | .na => .ok 5
  | .ts u => .ok (timeRiskOf eng u)
  | .strT none => .ok 5
  | .strT (some u) => .ok (timeRiskOf eng u)
  | .bad => .error ()

/-- The words of the change-ticket regular expression
`(chg|change|ticket|req|request)\d+` of `get_context_risk`. -/
def ticketWords : List Str :=
  ["chg".toList, "change".toList, "ticket".toList, "req".toList, "request".toList]

/-- Whether one alternative of the ticket pattern matches at the head of
`l` (word immediately followed by at least one digit). -/
def ticketAt (l : Str) : Bool :=
  ticketWords.any (fun w =>
    isPrefixOfB w l &&
      match l.drop w.length with
      | c :: _ => c.isDigit
      | [] => false)

/-- The `re.search` of the ticket pattern: a match at any position. -/
def ticketSearch : Str → Bool
  | [] => false
  | c :: t => ticketAt (c :: t) || ticketSearch t

/-- The `RiskEngine.get_context_risk` (lines 128-149) run under the scorer's
`try`: missing or empty context is 10, a high-risk keyword 25, a
low-risk keyword 0, a change-ticket reference 5, otherwise 10; calling
`.lower()` on a (truthy) non-string value raises. -/
def get_context_risk_run (eng : RiskEngine) (c : Cell) : Except Unit Nat :=
  match c with
  | .na => .ok 10
  | .bad _ => .error ()
  | .str s =>
    if s.isEmpty then .ok 10
    else
      let cl := lowerList s
      if eng.high_risk_keywords.any (fun k => containsB cl k) then .ok 25
      else if eng.low_risk_keywords.any (fun k => containsB cl k) then .ok 0
      else if ticketSearch cl then .ok 5
      else .ok 10

/-- The fixed high-risk object name patterns of
`get_sensitive_object_risk` (lines 162-165). -/
def highRiskPatterns : List Str :=
  ["credit_card".toList, "credit_cards".toList, "creditcard".toList,
   "creditcards".toList, "payment".toList, "financial".toList,
   "salary".toList, "payroll".toList, "ssn".toList, "social_security".toList]

/-- The broader sensitive object name patterns (lines 172-175). -/
def sensitivePatterns : List Str :=
  ["password".toList, "pwd".toList, "secret".toList, "key".toList,
   "token".toList, "hash".toList, "credit".toList, "card".toList,
   "account".toList, "employee".toList, "customer".toList]

/-- The `RiskEngine.get_sensitive_object_risk` (lines 151-181): 35 for a
caller-supplied sensitive table or a fixed high-risk pattern, 25 for a
broader sensitive pattern, 0 otherwise (total: only `str(...)` is
applied to the object). -/
def get_sensitive_object_risk (obj : Option Str) (sensitive_tables : List Str) : Nat :=
  match obj with
  | none => 0
  | some o =>
    if o.isEmpty then 0
    else
      let ol := lowerList o
      if sensitive_tables.any (fun t => containsB ol (lowerList t)) then 35
      else if highRiskPatterns.any (fun p => containsB ol p) then 35
      else if sensitivePatterns.any (fun p => containsB ol p) then 25
      else 0

/-- Admin account substrings of `get_user_risk` (line 192). -/
def adminPatterns : List Str :=
  ["admin".toList, "root".toList, "sa".toList, "dba".toList,
   "system".toList, "service".toList]

/-- The `RiskEngine.get_user_risk` (lines 183-200) run under the scorer's
`try`: +15 when `os_user != exec_user` (so also when either — or both —
is `NaN`), +10 when the OS user contains an admin pattern, capped at 25;
`.lower()` on a non-null non-string OS user raises. -/
def get_user_risk_run (os_user exec_user : Cell) : Except Unit Nat :=
  let mismatch := if cellNe os_user exec_user then 15 else 0
  match os_user with
  | .bad _ => .error ()
  | .na => .ok (min (mismatch + 0) 25)
  | .str s =>
    .ok (min (mismatch +
      (if adminPatterns.any (fun p => containsB (lowerList s) p) then 10 else 0)) 25)

/-- High-risk client programs of `get_program_risk` (lines 210-213). -/
def highRiskPrograms : List Str :=
  ["sqlcmd".toList, "psql".toList, "mysql".toList, "mongosh".toList,
   "redis-cli".toList, "powershell".toList, "cmd".toList, "bash".toList,
   "python".toList, "perl".toList, "script".toList]

/-- Medium-risk client programs (lines 220-223). -/
def mediumRiskPrograms : List Str :=
  ["ssms".toList, "management studio".toList, "workbench".toList,
   "navigator".toList, "toad".toList, "dbeaver".toList, "navicat".toList]

/-- The `RiskEngine.get_program_risk` (lines 202-229) run under the scorer's
`try`: missing program is 5, a high-risk program 15, a medium-risk one
8, otherwise 5; `.lower()` on a non-null non-string value raises. -/
def get_program_risk_run (program : Cell) : Except Unit Nat :=
  match program with
  | .na => .ok 5
  | .bad _ => .error ()
  | .str s =>
    let pl := lowerList s
    if highRiskPrograms.any (fun p => containsB pl p) then .ok 15
    else if mediumRiskPrograms.any (fun p => containsB pl p) then .ok 8
    else .ok 5

/-- The destructive operations of the dangerous-sensitive override
(`calculate_risk_score` line 247). -/
def dangerousOps : List Str := ["DELETE".toList, "DROP".toList, "TRUNCATE".toList]

/-- The fixed sensitive-keyword family of the override (line 248). -/
def sensitiveKeywords : List Str :=
  ["credit".toList, "card".toList, "payment".toList, "financial".toList,
   "salary".toList, "ssn".toList, "social".toList]

/-- The `is_dangerous_sensitive` (lines 242-254): some destructive operation
occurs as a substring of the upper-cased statement and the lower-cased
accessed object contains a sensitive keyword or a caller-supplied
sensitive table name. Missing statement / object become `''`. -/
def isDangerousSensitive (row : Event) (sensitive_tables : List Str) : Bool :=
  let su := match row.Statement with | none => [] | some s => upperList s
  let ol := match row.Accessed_Obj with | none => [] | some o => lowerList o
  (dangerousOps.any (fun op => containsB su op)) &&
    (sensitiveKeywords.any (fun k => containsB ol k) ||
      sensitive_tables.any (fun t => containsB ol (lowerList t)))

/-- Python `int(...)` on a float/rational: truncation toward zero. -/
def pyInt (q : ℚ) : ℤ := if q < 0 then ⌈q⌉ else ⌊q⌋

/-- The weighted sum, escalation multipliers and dangerous-sensitive
floor of `calculate_risk_score` (lines 256-279), as exact rational
arithmetic over the integer sub-scores. -/
def riskTotal (row : Event) (sensitive_tables : List Str)
    (sql time_r ctx sens user prog : Nat) : ℚ :=
  let t0 : ℚ := (sql : ℚ) * (3/10) + (time_r : ℚ) * (2/10) + (ctx : ℚ) * (15/100) +
    (sens : ℚ) * (25/100) + (user : ℚ) * (5/100) + (prog : ℚ) * (5/100)
  let t1 := if 0 < sens ∧ 30 ≤ sql then t0 * (9/5) else t0
  let t2 := if 0 < time_r ∧ 20 ≤ ctx then t1 * (3/2) else t1
  let t3 := if 0 < sens ∧ 40 ≤ sql ∧ 0 < time_r then t2 * 2 else t2
  if isDangerousSensitive row sensitive_tables then max (t3 * (5/2)) 75 else t3

/-- Line 282: `min(max(int(total_risk), 0), 100)`. -/
def clampScore (total : ℚ) : ℤ := min (max (pyInt total) 0) 100

/-- The body of `calculate_risk_score`'s `try` block (lines 233-282),
with each fallible sub-step sequenced in source order. -/
def calcRiskBody (eng : RiskEngine) (row : Event) (sensitive_tables : List Str) :
    Except Unit ℤ :=
  let sql := get_sql_operation_risk eng row.Statement
  match get_time_risk_run eng row._time with
  | .error e => .error e
  | .ok time_r =>
    match get_context_risk_run eng row.MS_Context with
    | .error e => .error e
    | .ok ctx =>
      let sens := get_sensitive_object_risk row.Accessed_Obj sensitive_tables
      match get_user_risk_run row.OS_User row.Exec_User with
      | .error e => .error e
      | .ok user =>
        match get_program_risk_run row.Program with
        | .error e => .error e
        | .ok prog =>
          .ok (clampScore (riskTotal row sensitive_tables sql time_r ctx sens user prog))

/-- The `RiskEngine.calculate_risk_score` (lines 231-286): the `try` body,
with any exception caught and turned into the fixed fallback score 50. -/
def calculate_risk_score (eng : RiskEngine) (row : Event)
    (sensitive_tables : List Str) : ℤ :=
  match calcRiskBody eng row sensitive_tables with
  | .ok n => n
  | .error _ => 50

/-- The per-user slice `full_df[full_df['OS_User'] == user]` used by the
anomaly detector. -/
def userEvents (corpus : List Event) (user : Cell) : List Event :=
  corpus.filter (fun e => cellEq e.OS_User user)

/-- The `AnomalyDetector.__init__`: off-hours start, 18:00 in minutes. -/
def detectorOffHoursStart : Nat := 18 * 60

/-- The `AnomalyDetector.__init__`: off-hours end, 08:00 in minutes. -/
def detectorOffHoursEnd : Nat := 8 * 60

/-- The `AnomalyDetector._is_off_hours` (lines 46-58) run under
`detect_anomalies`' `try`: weekend, or time of day in the wrapping
off-hours window; `.time()` on a missing (`NaT`), string or other
non-datetime value raises. -/
def _is_off_hours_run (t : TimeCell) : Except Unit Bool :=
  match t with
  | .ts u =>
    .ok (decide (5 ≤ tsWeekday u) ||
      (decide (detectorOffHoursStart ≤ tsTimeOfDay u) ||
        decide (tsTimeOfDay u ≤ detectorOffHoursEnd)))
  | _ => .error ()

/-- Membership of one corpus event's `_time` in the trailing one-hour
window `[current - 1h, current]` (lines 84-87); a `NaT` or non-timestamp
cell compares `False`. -/
def inHourWindow (tc : TimeCell) (t : Timestamp) : Bool :=
  match tc with
  | .ts u => decide ((t : ℤ) - 60 ≤ (u : ℤ)) && decide (u ≤ t)
  | _ => false

/-- Result dict of `_detect_volume_anomaly`. -/
structure VolRes where
  is_anomaly : Bool
  description : Str
deriving DecidableEq

/-- The initial `{'is_anomaly': False, 'description': ''}`. -/
def volDefault : VolRes := ⟨false, []⟩

/-- Bulk-operation keywords (line 95). -/
def bulkKeywords : List Str :=
  ["BULK".toList, "BATCH".toList, "IMPORT".toList, "EXPORT".toList,
   "BACKUP".toList, "RESTORE".toList]

/-- The `try` body of `AnomalyDetector._detect_volume_anomaly`
(lines 64-99): `.upper()` on a missing statement raises (before the
5-event gate); fewer than 5 events for the user returns the default;
then `SELECT *`, the 1-hour frequency window, and bulk keywords are
checked in order. For a `NaT` current time the window comparisons are
all `False`; for a string or other non-datetime current time the
`Timestamp` arithmetic raises. -/
def volumeBody (row : Event) (corpus : List Event) : Except Unit VolRes :=
  match row.Statement with
  | none => .error ()
  | some s =>
    let statement := upperList s
    let user_df := userEvents corpus row.OS_User
    if user_df.length < 5 then .ok volDefault
    else if containsB statement "SELECT *".toList then
      .ok ⟨true, "Potential data dump using SELECT *".toList⟩
    else
      match row._time with
      | .ts t =>
        let hourCount := (user_df.filter (fun e => inHourWindow e._time t)).length
        if 10 < hourCount then
          .ok ⟨true, ("High query frequency: " ++ Nat.repr hourCount ++
            " queries in 1 hour").toList⟩
        else if bulkKeywords.any (fun k => containsB statement k) then
          .ok ⟨true, "Bulk data operation detected".toList⟩
        else .ok volDefault
      | .na =>
        if bulkKeywords.any (fun k => containsB statement k) then
          .ok ⟨true, "Bulk data operation detected".toList⟩
        else .ok volDefault
      | _ => .error ()

/-- The `AnomalyDetector._detect_volume_anomaly` (lines 60-104): its local
`except` returns the result dict as initialized. -/
def _detect_volume_anomaly (row : Event) (corpus : List Event) : VolRes :=
  match volumeBody row corpus with
  | .ok r => r
  | .error _ => volDefault

/-- Operation keywords of `_extract_sql_operation` (line 153), in
source order. -/
def extractOps : List Str :=
  ["SELECT".toList, "INSERT".toList, "UPDATE".toList, "DELETE".toList,
   "DROP".toList, "ALTER".toList, "CREATE".toList, "GRANT".toList,
   "REVOKE".toList, "TRUNCATE".toList]

/-- First keyword the upper-stripped statement starts with, else
`'OTHER'`. -/
def extractLoop (ops : List Str) (u : Str) : Str :=
  match ops with
  | [] => "OTHER".toList
  | op :: rest => if isPrefixOfB op u then op else extractLoop rest u

/-- The `AnomalyDetector._extract_sql_operation` (lines 149-159) on a
present string. -/
def _extract_sql_operation (s : Str) : Str :=
  extractLoop extractOps (stripList (upperList s))

/-- The `user_df['Statement'].apply(self._extract_sql_operation)`: raises
(`none`) as soon as any statement of the slice is missing. -/
def statementsOps (evs : List Event) : Option (List Str) :=
  evs.mapM (fun e => e.Statement.map _extract_sql_operation)

/-- The `try` body of `AnomalyDetector._detect_atypical_behavior`
(lines 108-143): requires at least 10 events for the user; first-time or
<10% database, first-time program, then <5% operation keyword, with
`value_counts` dropping missing values (a missing current value counts
as first-time). -/
def atypicalBody (row : Event) (corpus : List Event) : Except Unit Bool :=
  let user_df := userEvents corpus row.OS_User
  if user_df.length < 10 then .ok false
  else
    let dbCount := (user_df.filter (fun e => cellEq e.DB_Name row.DB_Name)).length
    if 0 < dbCount then
      if (dbCount : ℚ) / (user_df.length : ℚ) < 1/10 then .ok true
      else
        let progCount := (user_df.filter (fun e => cellEq e.Program row.Program)).length
        if progCount = 0 then .ok true
        else
          match statementsOps user_df with
          | none => .error ()
          | some ops =>
            match row.Statement with
            | none => .error ()
            | some s =>
              let curOp := _extract_sql_operation s
              let c := ops.count curOp
              if 0 < c then
                if (c : ℚ) / (user_df.length : ℚ) < 1/20 then .ok true else .ok false
              else .ok false
    else .ok true

/-- The `AnomalyDetector._detect_atypical_behavior` (lines 106-147): its
local `except` returns `False`. -/
def _detect_atypical_behavior (row : Event) (corpus : List Event) : Bool :=
  match atypicalBody row corpus with
  | .ok b => b
  | .error _ => false

/-- The anomaly dict built by `detect_anomalies`. -/
structure AnomalyResult where
  is_outlier : Bool
  off_hours : Bool
  unusual_volume : Bool
  atypical_behavior : Bool
  volume_description : Str
deriving DecidableEq

/-- The initial all-false dict of `detect_anomalies` (lines 13-19). -/
def defaultAnomalies : AnomalyResult :=
  { is_outlier := false, off_hours := false, unusual_volume := false,
    atypical_behavior := false, volume_description := [] }

/-- The `AnomalyDetector.detect_anomalies` (lines 11-44). The only statement
of its `try` block that can raise is the very first,
`self._is_off_hours(row['_time'])` (the two sub-detectors catch their
own exceptions), so an invalid timestamp yields the dict as initialized
— the all-false default. -/
def detect_anomalies (row : Event) (corpus : List Event) : AnomalyResult :=
  match _is_off_hours_run row._time with
  | .error _ => defaultAnomalies
  | .ok off =>
    let vol := _detect_volume_anomaly row corpus
    let aty := _detect_atypical_behavior row corpus
    { is_outlier := off || vol.is_anomaly || aty,
      off_hours := off,
      unusual_volume := vol.is_anomaly,
      atypical_behavior := aty,
      volume_description := vol.description }

/-- The batch pass of `main.py` (lines 344-349): one score per filtered
event. -/
def scoreBatch (eng : RiskEngine) (rows : List Event)
    (sensitive_tables : List Str) : List ℤ :=
  rows.map (fun r => calculate_risk_score eng r sensitive_tables)

/-- The batch pass of `main.py`: one anomaly result per filtered event. -/
def detectBatch (rows : List Event) (corpus : List Event) : List AnomalyResult :=
  rows.map (fun r => detect_anomalies r corpus)

/-- A JSON value, as produced by `json.loads` / consumed by
`json.dumps`. `json.dumps`/`json.loads` round-trip every JSON-safe
Python value (the configuration store only ever holds such values), so
the serialized text of a configuration is represented here by the JSON
value itself. -/
inductive Json where
  | null : Json
  | bool : Bool → Json
  | num : ℚ → Json
  | str : Str → Json
  | arr : List Json → Json
  | obj : List (Str × Json) → Json

/-- Python `key in dict` on a JSON object (`False` on non-objects, which
`validate_config` only reaches for a non-dict import that the membership
test then rejects). -/
def Json.hasKey (j : Json) (k : Str) : Bool :=
  match j with
  | .obj kvs => kvs.any (fun kv => kv.1 == k)
  | _ => false

/-- The `dict[key]` lookup on a JSON object. -/
def Json.objGet (j : Json) (k : Str) : Option Json :=
  match j with
  | .obj kvs => lookupKV kvs k
  | _ => none
where lookupKV : List (Str × Json) → Str → Option Json
  | [], _ => none
  | (a, v) :: rest, k => if a == k then some v else lookupKV rest k

/-- The `dict[key] = value` on a JSON object holding the key. -/
def Json.objSet (j : Json) (k : Str) (v : Json) : Json :=
  match j with
  | .obj kvs => .obj (kvs.map (fun kv => if kv.1 == k then (kv.1, v) else kv))
  | _ => j

/-- Whether the JSON value is an object (Python `isinstance(..., dict)`). -/
def Json.isObj : Json → Bool
  | .obj _ => true
  | _ => false

/-- The in-memory state of `AdminConfig`: the current configuration.
(`save_config` persists it to disk and reports success; persistence is
outside the engine and modelled as always succeeding.) -/
structure AdminStore where
  config : Json

/-- The `AdminConfig.default_config` (`admin_config.py` lines 11-74). -/
def defaultAdminConfig : Json :=
  .obj
    [("sql_operation_weights".toList, .obj
        [("DELETE".toList, .num 30), ("DROP".toList, .num 35),
         ("ALTER".toList, .num 25), ("UPDATE".toList, .num 20),
         ("INSERT".toList, .num 15), ("GRANT".toList, .num 25),
         ("REVOKE".toList, .num 25), ("SELECT *".toList, .num 20),
         ("TRUNCATE".toList, .num 35), ("CREATE".toList, .num 10),
         ("SELECT".toList, .num 5)]),
     ("risk_weights".toList, .obj
        [("sql_operation".toList, .num (3/10)), ("timing".toList, .num (2/10)),
         ("context".toList, .num (15/100)),
         ("sensitive_objects".toList, .num (25/100)),
         ("user_factors".toList, .num (5/100)), ("program".toList, .num (5/100))]),
     ("time_settings".toList, .obj
        [("off_hours_start".toList, .str "18:00".toList),
         ("off_hours_end".toList, .str "08:00".toList),
         ("weekend_multiplier".toList, .num (3/2)),
         ("late_night_bonus".toList, .num 10),
         ("off_hours_bonus".toList, .num 15),
         ("weekend_bonus".toList, .num 10)]),
     ("sensitive_tables".toList, .arr
        [.str "Salaries".toList, .str "Employees".toList,
         .str "HR_Records".toList, .str "CustomerData".toList,
         .str "AuditLog".toList, .str "Payroll".toList,
         .str "SSN".toList, .str "Credit".toList]),
     ("high_risk_keywords".toList, .arr
        [.str "unauthorized".toList, .str "emergency".toList,
         .str "bypass".toList, .str "override".toList, .str "manual".toList,
         .str "temp".toList, .str "temporary".toList, .str "hotfix".toList,
         .str "urgent".toList, .str "critical".toList]),
     ("low_risk_keywords".toList, .arr
        [.str "scheduled".toList, .str "approved".toList,
         .str "maintenance".toList, .str "routine".toList,
         .str "standard".toList, .str "automated".toList,
         .str "planned".toList, .str "regular".toList]),
     ("high_risk_programs".toList, .arr
        [.str "sqlcmd".toList, .str "psql".toList, .str "mysql".toList,
         .str "mongosh".toList, .str "redis-cli".toList,
         .str "powershell".toList, .str "cmd".toList, .str "bash".toList,
         .str "python".toList, .str "perl".toList, .str "script".toList]),
     ("medium_risk_programs".toList, .arr
        [.str "ssms".toList, .str "management studio".toList,
         .str "workbench".toList, .str "navigator".toList,
         .str "toad".toList, .str "dbeaver".toList, .str "navicat".toList]),
     ("admin_patterns".toList, .arr
        [.str "admin".toList, .str "root".toList, .str "sa".toList,
         .str "dba".toList, .str "system".toList, .str "service".toList]),
     ("risk_thresholds".toList, .obj
        [("high".toList, .num 70), ("medium".toList, .num 40),
         ("low".toList, .num 0)]),
     ("anomaly_settings".toList, .obj
        [("volume_threshold_multiplier".toList, .num 3),
         ("frequency_threshold".toList, .num 10),
         ("off_hours_sensitivity".toList, .num 1)])]

/-- The store as `AdminConfig.__init__` leaves it when no persisted file
exists: the default configuration. -/
def defaultAdminStore : AdminStore := ⟨defaultAdminConfig⟩

/-- The `AdminConfig.validate_config` (lines 137-143): every required
section present. -/
def validate_config (config : Json) : Bool :=
  ["sql_operation_weights".toList, "risk_weights".toList,
   "time_settings".toList, "sensitive_tables".toList,
   "high_risk_keywords".toList, "low_risk_keywords".toList].all
    (fun sect => config.hasKey sect)

/-- The `AdminConfig.export_config` (lines 120-122): the serialized current
configuration (represented as the JSON value, see `Json`). -/
def export_config (store : AdminStore) : Json := store.config

/-- The `AdminConfig.import_config` (lines 124-135): parse (always succeeds
on exported text), validate, and on success replace the configuration
and persist; on failure leave the store untouched. Returns the new store
and the reported success. -/
def import_config (store : AdminStore) (config_json : Json) : AdminStore × Bool :=
  if validate_config config_json then (⟨config_json⟩, true) else (store, false)

/-- The `AdminConfig.update_config` (lines 109-118): update one key inside a
dict-valued section (or replace a top-level entry whose key names the
section itself), persist, and report success. -/
def update_config (store : AdminStore) (sect key : Str) (value : Json) :
    AdminStore × Bool :=
  match store.config.objGet sect with
  | none => (store, false)
  | some secVal =>
    if secVal.isObj && secVal.hasKey key then
      (⟨store.config.objSet sect (secVal.objSet key value)⟩, true)
    else if sect == key then
      (⟨store.config.objSet sect value⟩, true)
    else (store, false)

/-- Witness row for C9: a missing timestamp on a `SELECT *` statement by
a user with six corpus events — volume conditions that would otherwise
fire. -/
def rowC9 : Event where
  Statement := some "SELECT * FROM Salaries".toList
  _time := .na
  MS_Context := .str "hotfix".toList
  Accessed_Obj := some "Salaries".toList
  OS_User := .str "bob".toList
  Exec_User := .str "bob".toList
  Program := .str "sqlcmd".toList
  DB_Name := .str "HR".toList

/-- Corpus for the C9 witness. -/
def corpusC9 : List Event := List.replicate 6 { rowC9 with _time := .ts 600 }

/-- Witness row for C6: a `SELECT *` statement by a user with only four
corpus events. -/
def rowC6 : Event where
  Statement := some "SELECT * FROM Salaries".toList
  _time := .ts 1500
  MS_Context := .na
  Accessed_Obj := some "Salaries".toList
  OS_User := .str "carol".toList
  Exec_User := .str "carol".toList
  Program := .na
  DB_Name := .na

/-- Corpus for the C6 witness. -/
def corpusC6 : List Event := List.replicate 4 rowC6

/-- C5 counterexample row: a valid Saturday timestamp with a missing
statement, so the volume sub-step raises (`row['Statement'].upper()` on
`NaN`) while the off-hours check succeeds. -/
def rowC5 : Event where
  Statement := none
  _time := .ts 7200
  MS_Context := .na
  Accessed_Obj := none
  OS_User := .str "alice".toList
  Exec_User := .str "alice".toList
  Program := .na
  DB_Name := .na

/-- Witness row for C5's scorer half: a non-string context cell makes
the context sub-step raise. -/
def rowC5w : Event where
  Statement := some "SELECT x FROM t".toList
  _time := .ts 600
  MS_Context := .bad 0
  Accessed_Obj := none
  OS_User := .str "dave".toList
  Exec_User := .str "dave".toList
  Program := .na
  DB_Name := .na

/-- Witness row for C1. -/
def rowC1 : Event where
  Statement := some "DROP TABLE credit_cards".toList
  _time := .na
  MS_Context := .na
  Accessed_Obj := some "credit_cards".toList
  OS_User := .na
  Exec_User := .na
  Program := .na
  DB_Name := .na

/-- The object half of the `is_dangerous_sensitive` test. -/
def sensitiveObjMatch (obj : Option Str) (tables : List Str) : Bool :=
  let ol := match obj with | none => [] | some o => lowerList o
  sensitiveKeywords.any (fun k => containsB ol k) ||
    tables.any (fun t => containsB ol (lowerList t))

/-- Witness row for C7: a weekday working-hours event on a
non-sensitive object. -/
def rowC7 : Event where
  Statement := none
  _time := .ts (2 * 1440 + 14 * 60)
  MS_Context := .str "approved change".toList
  Accessed_Obj := some "widgets".toList
  OS_User := .str "erin".toList
  Exec_User := .str "erin".toList
  Program := .str "ssms".toList
  DB_Name := .na

/-- The recognized plain operation keywords (the weight-dict keys other
than `SELECT *`). -/
def plainKeywords : List Str :=
  ["DELETE".toList, "DROP".toList, "ALTER".toList, "UPDATE".toList,
   "INSERT".toList, "GRANT".toList, "REVOKE".toList, "TRUNCATE".toList,
   "CREATE".toList, "SELECT".toList]

/-! ## Helper lemmas -/

theorem containsB_of_isPrefixOfB {p s : Str} (h : isPrefixOfB p s = true) :
    containsB s p = true := by
  unfold containsB
  rw [h, Bool.true_or]

theorem isPrefixOfB_append {p a : Str} (b : Str) (h : isPrefixOfB p a = true) :
    isPrefixOfB p (a ++ b) = true := by
  induction p generalizing a with
  | nil => rfl
  | cons c cs ih =>
    cases a with
    | nil => simp [isPrefixOfB] at h
    | cons d ds =>
      simp only [isPrefixOfB, Bool.and_eq_true] at h
      simp only [List.cons_append, isPrefixOfB, Bool.and_eq_true]
      exact ⟨h.1, ih h.2⟩

theorem containsB_append_left {y p : Str} (x : Str) (h : containsB y p = true) :
    containsB (x ++ y) p = true := by
  induction x with
  | nil => simpa using h
  | cons c cs ih =>
    unfold containsB
    simp only [List.cons_append]
    rw [ih, Bool.or_true]

/-- The stripped string `stripList u` is a contiguous piece of `u`. -/
theorem stripList_decomp (u : Str) :
    u = u.takeWhile isWsChar ++
      (stripList u ++ ((u.dropWhile isWsChar).reverse.takeWhile isWsChar).reverse) := by
  conv_lhs => rw [← List.takeWhile_append_dropWhile isWsChar u]
  congr 1
  conv_lhs => rw [← List.reverse_reverse (u.dropWhile isWsChar)]
  conv_lhs =>
    rw [← List.takeWhile_append_dropWhile isWsChar (u.dropWhile isWsChar).reverse]
  rw [List.reverse_append]
  rfl

/-- A prefix of the stripped string occurs somewhere in the original. -/
theorem containsB_of_prefix_strip {p u : Str}
    (h : isPrefixOfB p (stripList u) = true) : containsB u p = true := by
  have h2 := isPrefixOfB_append
    (((u.dropWhile isWsChar).reverse.takeWhile isWsChar).reverse) h
  have h3 := containsB_of_isPrefixOfB h2
  have h4 := containsB_append_left (u.takeWhile isWsChar) h3
  rw [← stripList_decomp u] at h4
  exact h4

theorem get_time_risk_ok (eng : RiskEngine) {t : TimeCell}
    (h : t ≠ TimeCell.bad) :
    ∃ n, get_time_risk_run eng t = Except.ok n ∧ n ≤ 35 := by
  cases t with
  | na => exact ⟨5, rfl, by norm_num⟩
  | ts u => exact ⟨timeRiskOf eng u, rfl, min_le_right _ _⟩
  | strT p =>
    cases p with
    | none => exact ⟨5, rfl, by norm_num⟩
    | some u => exact ⟨timeRiskOf eng u, rfl, min_le_right _ _⟩
  | bad => exact absurd rfl h

theorem get_context_risk_ok (eng : RiskEngine) {c : Cell}
    (h : c.isBad = false) :
    ∃ n, get_context_risk_run eng c = Except.ok n ∧ n ≤ 25 := by
  cases c with
  | na => exact ⟨10, rfl, by norm_num⟩
  | bad i => simp [Cell.isBad] at h
  | str s =>
    dsimp only [get_context_risk_run]
    split
    · exact ⟨10, rfl, by norm_num⟩
    · split
      · exact ⟨25, rfl, le_refl _⟩
      · split
        · exact ⟨0, rfl, by norm_num⟩
        · split
          · exact ⟨5, rfl, by norm_num⟩
          · exact ⟨10, rfl, by norm_num⟩

theorem get_user_risk_ok {os : Cell} (exec : Cell) (h : os.isBad = false) :
    ∃ n, get_user_risk_run os exec = Except.ok n ∧ n ≤ 25 := by
  cases os with
  | na => exact ⟨_, rfl, min_le_right _ _⟩
  | bad i => simp [Cell.isBad] at h
  | str s => exact ⟨_, rfl, min_le_right _ _⟩

theorem get_program_risk_ok {p : Cell} (h : p.isBad = false) :
    ∃ n, get_program_risk_run p = Except.ok n ∧ n ≤ 15 := by
  cases p with
  | na => exact ⟨5, rfl, by norm_num⟩
  | bad i => simp [Cell.isBad] at h
  | str s =>
    dsimp only [get_program_risk_run]
    split
    · exact ⟨15, rfl, le_refl _⟩
    · split
      · exact ⟨8, rfl, by norm_num⟩
      · exact ⟨5, rfl, by norm_num⟩

/-- Evaluation of `calculate_risk_score` by the pure arithmetic once every
fallible sub-step is known to succeed. -/
theorem calculate_risk_score_eval (eng : RiskEngine) (row : Event)
    (tables : List Str) {tr cr ur pr : Nat}
    (htr : get_time_risk_run eng row._time = Except.ok tr)
    (hcr : get_context_risk_run eng row.MS_Context = Except.ok cr)
    (hur : get_user_risk_run row.OS_User row.Exec_User = Except.ok ur)
    (hpr : get_program_risk_run row.Program = Except.ok pr) :
    calculate_risk_score eng row tables =
      clampScore (riskTotal row tables (get_sql_operation_risk eng row.Statement)
        tr cr (get_sensitive_object_risk row.Accessed_Obj tables) ur pr) := by
  unfold calculate_risk_score calcRiskBody
  rw [htr, hcr, hur, hpr]

theorem clampScore_nonneg (q : ℚ) : 0 ≤ clampScore q :=
  le_min (le_max_right _ 0) (by norm_num)

theorem clampScore_le_100 (q : ℚ) : clampScore q ≤ 100 :=
  min_le_right _ _

theorem clampScore_ge_of_le {z : ℤ} {q : ℚ} (hz : z ≤ 100) (h : (z : ℚ) ≤ q) :
    z ≤ clampScore q := by
  unfold clampScore pyInt
  rcases lt_or_le q 0 with hq | hq
  · refine le_min ?_ hz
    have : z ≤ 0 := by exact_mod_cast le_trans h (le_of_lt hq)
    exact le_trans this (le_max_right _ _)
  · rw [if_neg (not_lt.mpr hq)]
    refine le_min (le_trans ?_ (le_max_left _ _)) hz
    exact Int.le_floor.mpr (by exact_mod_cast h)

/-- A shape lemma: every successful scoring body is a clamped total. -/
theorem calcRiskBody_ok_shape (eng : RiskEngine) (row : Event)
    (tables : List Str) {n : ℤ}
    (h : calcRiskBody eng row tables = Except.ok n) : ∃ q : ℚ, n = clampScore q := by
  unfold calcRiskBody at h
  cases h1 : get_time_risk_run eng row._time with
  | error e => rw [h1] at h; exact absurd h (by simp)
  | ok tr =>
    rw [h1] at h
    cases h2 : get_context_risk_run eng row.MS_Context with
    | error e => rw [h2] at h; exact absurd h (by simp)
    | ok cr =>
      rw [h2] at h
      cases h3 : get_user_risk_run row.OS_User row.Exec_User with
      | error e => rw [h3] at h; exact absurd h (by simp)
      | ok ur =>
        rw [h3] at h
        cases h4 : get_program_risk_run row.Program with
        | error e => rw [h4] at h; exact absurd h (by simp)
        | ok pr =>
          rw [h4] at h
          simp only [Except.ok.injEq] at h
          exact ⟨_, h.symm⟩

/-! ## Claim theorems -/

/-- C2: for every engine state, event and sensitive-object list, the
value returned by `calculate_risk_score` is an integer between 0 and 100
inclusive — on the normal path (where it is a clamped total) and on the
exception-fallback path (where it is 50). -/
theorem calculate_risk_score_in_range (eng : RiskEngine) (row : Event)
    (sensitive_tables : List Str) :
    0 ≤ calculate_risk_score eng row sensitive_tables ∧
      calculate_risk_score eng row sensitive_tables ≤ 100 := by
  unfold calculate_risk_score
  cases h : calcRiskBody eng row sensitive_tables with
  | error e => exact ⟨by norm_num, by norm_num⟩
  | ok n =>
    obtain ⟨q, rfl⟩ := calcRiskBody_ok_shape eng row sensitive_tables h
    exact ⟨clampScore_nonneg q, clampScore_le_100 q⟩

/-- C9: for every event whose `_time` is missing (`NaT`), a raw string,
or any other non-datetime value, `detect_anomalies` returns the
all-false default result: the off-hours check raises first inside the
shared `try` block, so `unusual_volume` and `atypical_behavior` are also
reported false whatever the corpus would say for them. -/
theorem detect_anomalies_invalid_time (row : Event) (corpus : List Event)
    (h : row._time = TimeCell.na ∨ row._time = TimeCell.bad ∨
      ∃ p, row._time = TimeCell.strT p) :
    detect_anomalies row corpus = defaultAnomalies := by
  unfold detect_anomalies
  rcases h with h | h | ⟨p, h⟩ <;> rw [h] <;> rfl



theorem detect_anomalies_invalid_time_witness :
    detect_anomalies rowC9 corpusC9 = defaultAnomalies :=
  detect_anomalies_invalid_time rowC9 corpusC9 (Or.inl rfl)

/-- C10: when both `OS_User` and `Exec_User` are missing, `get_user_risk`
treats them as unequal (`NaN != NaN`) and returns the same 15-point
mismatch penalty as an explicit identity mismatch; a missing `OS_User`
alone likewise scores 15 against any present `Exec_User`. -/
theorem get_user_risk_nan_mismatch :
    cellNe Cell.na Cell.na = true ∧
      get_user_risk_run Cell.na Cell.na = Except.ok 15 ∧
      ∀ s : Str, get_user_risk_run Cell.na (Cell.str s) = Except.ok 15 := by
  refine ⟨rfl, rfl, fun s => rfl⟩

/-- C6: an event whose `OS_User` has fewer than 5 events in the corpus
never gets `unusual_volume = true`: the 5-event gate runs before the
`SELECT *`, frequency and bulk checks. -/
theorem unusual_volume_needs_history (row : Event) (corpus : List Event)
    (h : (userEvents corpus row.OS_User).length < 5) :
    (detect_anomalies row corpus).unusual_volume = false := by
  unfold detect_anomalies
  cases hoff : _is_off_hours_run row._time with
  | error e => rfl
  | ok off =>
    have hvol : (_detect_volume_anomaly row corpus).is_anomaly = false := by
      unfold _detect_volume_anomaly volumeBody
      cases hst : row.Statement with
      | none => rfl
      | some s =>
        dsimp only
        rw [if_pos h]
        rfl
    simp only [hvol]



theorem unusual_volume_needs_history_witness :
    (userEvents corpusC6 rowC6.OS_User).length < 5 ∧
      (detect_anomalies rowC6 corpusC6).unusual_volume = false :=
  ⟨by decide, unusual_volume_needs_history rowC6 corpusC6 (by decide)⟩


/-- C5 counterexample: an internal sub-step (volume detection) fails on
`rowC5`, yet `detect_anomalies` does not return the all-false default —
`off_hours` (and hence `is_outlier`) is true. The inner `except` of
`_detect_volume_anomaly` only forces its own component false. -/
theorem substep_failure_not_all_false :
    volumeBody rowC5 [] = Except.error () ∧
      detect_anomalies rowC5 [] ≠ defaultAnomalies := by
  exact ⟨rfl, by decide⟩

/-- C5 (amended): neither function propagates an exception.
`calculate_risk_score` returns the fixed fallback 50 whenever its `try`
body fails; `detect_anomalies` returns the all-false default when its
first sub-step (the off-hours timestamp access) fails, while a failure
inside the volume or atypical sub-detector is caught locally and only
forces that one component false; a batch pass yields exactly one result
per input event. -/
theorem fallback_on_substep_failure :
    (∀ (eng : RiskEngine) (row : Event) (tables : List Str),
        calcRiskBody eng row tables = Except.error () →
          calculate_risk_score eng row tables = 50) ∧
    (∀ (row : Event) (corpus : List Event),
        _is_off_hours_run row._time = Except.error () →
          detect_anomalies row corpus = defaultAnomalies) ∧
    (∀ (row : Event) (corpus : List Event),
        volumeBody row corpus = Except.error () →
          (detect_anomalies row corpus).unusual_volume = false) ∧
    (∀ (row : Event) (corpus : List Event),
        atypicalBody row corpus = Except.error () →
          (detect_anomalies row corpus).atypical_behavior = false) ∧
    (∀ (eng : RiskEngine) (rows : List Event) (tables : List Str),
        (scoreBatch eng rows tables).length = rows.length) ∧
    (∀ (rows corpus : List Event), (detectBatch rows corpus).length = rows.length) := by
  refine ⟨?_, ?_, ?_, ?_, ?_, ?_⟩
  · intro eng row tables h
    unfold calculate_risk_score
    rw [h]
  · intro row corpus h
    unfold detect_anomalies
    rw [h]
  · intro row corpus h
    unfold detect_anomalies
    cases hoff : _is_off_hours_run row._time with
    | error e => rfl
    | ok off =>
      have hvol : (_detect_volume_anomaly row corpus).is_anomaly = false := by
        unfold _detect_volume_anomaly
        rw [h]
        rfl
      simp only [hvol]
  · intro row corpus h
    unfold detect_anomalies
    cases hoff : _is_off_hours_run row._time with
    | error e => rfl
    | ok off =>
      have haty : _detect_atypical_behavior row corpus = false := by
        unfold _detect_atypical_behavior
        rw [h]
      simp only [haty]
  · intro eng rows tables
    exact List.length_map _ _
  · intro rows corpus
    exact List.length_map _ _


theorem fallback_on_substep_failure_witness :
    calculate_risk_score riskEngineInit rowC5w [] = 50 ∧
      detect_anomalies { rowC5w with _time := .na } [] = defaultAnomalies :=
  ⟨fallback_on_substep_failure.1 riskEngineInit rowC5w [] rfl,
    fallback_on_substep_failure.2.1 { rowC5w with _time := .na } [] rfl⟩

/-- C3 (code bug): the scorer does not read the Configuration Store at
all. After the admin updates the store's `sql_operation_weights` so that
DELETE scores 0, the store holds the new value, yet the SQL-operation
sub-score of the next scoring call is still 45 — the value hardcoded by
`RiskEngine.__init__` (`calculate_risk_score` takes no configuration
argument and `main.py` constructs `RiskEngine()` without one). -/
theorem config_update_not_used_by_scorer :
    ((update_config defaultAdminStore "sql_operation_weights".toList
        "DELETE".toList (Json.num 0)).1.config.objGet
          "sql_operation_weights".toList).map
        (fun sec => sec.objGet "DELETE".toList) =
      some (some (Json.num 0)) ∧
    get_sql_operation_risk riskEngineInit
      (some "DELETE FROM T WHERE id=1".toList) = 45 ∧
    (45 : Nat) ≠ 0 ∧
    dictGet riskEngineInit.sql_operation_weights "DELETE".toList 20 = 45 := by
  refine ⟨rfl, rfl, by decide, rfl⟩

/-- C8: importing the exported text of any structurally valid
configuration (all required sections present) leaves the store holding a
configuration equal to the exported one. -/
theorem config_roundtrip (store : AdminStore)
    (h : validate_config (export_config store) = true) :
    (import_config store (export_config store)).1.config = export_config store := by
  unfold import_config
  rw [h]
  rfl

theorem config_roundtrip_witness :
    validate_config (export_config defaultAdminStore) = true ∧
      (import_config defaultAdminStore (export_config defaultAdminStore)).1.config =
        export_config defaultAdminStore :=
  ⟨by decide, config_roundtrip defaultAdminStore (by decide)⟩

/-- C1: for every engine state and well-typed event whose statement's
leading keyword is DELETE, DROP or TRUNCATE and whose accessed object
matches the caller-supplied sensitive-object list or the fixed
sensitive-keyword family, `calculate_risk_score` is at least 75,
whatever the other field values. -/
theorem dangerous_sensitive_floor (eng : RiskEngine) (row : Event)
    (tables : List Str) (hw : row.wellFormed)
    (s : Str) (hs : row.Statement = some s)
    (hkw : ∃ op ∈ dangerousOps, isPrefixOfB op (stripList (upperList s)) = true)
    (o : Str) (ho : row.Accessed_Obj = some o)
    (hobj : (∃ k ∈ sensitiveKeywords, containsB (lowerList o) k = true) ∨
      ∃ t ∈ tables, containsB (lowerList o) (lowerList t) = true) :
    75 ≤ calculate_risk_score eng row tables := by
  obtain ⟨hctx, hos, hprog, htime⟩ := hw
  obtain ⟨tr, htr, -⟩ := get_time_risk_ok eng htime
  obtain ⟨cr, hcr, -⟩ := get_context_risk_ok eng hctx
  obtain ⟨ur, hur, -⟩ := get_user_risk_ok row.Exec_User hos
  obtain ⟨pr, hpr, -⟩ := get_program_risk_ok hprog
  rw [calculate_risk_score_eval eng row tables htr hcr hur hpr]
  have hdang : isDangerousSensitive row tables = true := by
    unfold isDangerousSensitive
    rw [hs, ho]
    refine Bool.and_eq_true_iff.mpr ⟨?_, ?_⟩
    · obtain ⟨op, hmem, hpre⟩ := hkw
      exact List.any_eq_true.mpr ⟨op, hmem, containsB_of_prefix_strip hpre⟩
    · refine Bool.or_eq_true_iff.mpr ?_
      rcases hobj with ⟨k, hmem, hk⟩ | ⟨t, hmem, ht⟩
      · exact Or.inl (List.any_eq_true.mpr ⟨k, hmem, hk⟩)
      · exact Or.inr (List.any_eq_true.mpr ⟨t, hmem, ht⟩)
  unfold riskTotal
  rw [if_pos (by rw [hdang])]
  exact clampScore_ge_of_le (by norm_num) (le_trans (by norm_num) (le_max_right _ 75))


theorem dangerous_sensitive_floor_witness :
    75 ≤ calculate_risk_score riskEngineInit rowC1 [] :=
  dangerous_sensitive_floor riskEngineInit rowC1 [] (by decide)
    ("DROP TABLE credit_cards".toList) rfl
    ⟨"DROP".toList, by decide, by decide⟩
    ("credit_cards".toList) rfl
    (Or.inl ⟨"credit".toList, by decide, by decide⟩)


theorem isDangerousSensitive_obj_false (row : Event) (tables : List Str)
    (h : sensitiveObjMatch row.Accessed_Obj tables = false) :
    isDangerousSensitive row tables = false := by
  unfold isDangerousSensitive
  unfold sensitiveObjMatch at h
  dsimp only at h ⊢
  rw [h, Bool.and_false]

theorem clampScore_strict {a b : ℚ} (h1 : b + 1 ≤ a) (h0 : 0 ≤ b)
    (h100 : a ≤ 100) : clampScore b < clampScore a := by
  have ha0 : 0 ≤ a := le_trans h0 (by linarith)
  unfold clampScore pyInt
  rw [if_neg (not_lt.mpr h0), if_neg (not_lt.mpr ha0)]
  have hfb0 : (0 : ℤ) ≤ ⌊b⌋ := Int.floor_nonneg.mpr h0
  have hstrict : ⌊b⌋ < ⌊a⌋ := by
    have hb : (⌊b⌋ : ℚ) ≤ b := Int.floor_le b
    have hle : ((⌊b⌋ + 1 : ℤ) : ℚ) ≤ a := by push_cast; linarith
    have := Int.le_floor.mpr hle
    omega
  have hfa100 : ⌊a⌋ ≤ 100 := by
    have h2 : ⌊a⌋ ≤ ⌊(100 : ℚ)⌋ := Int.floor_le_floor h100
    simpa using h2
  rw [max_eq_left hfb0, max_eq_left (le_trans hfb0 (le_of_lt hstrict)),
    min_eq_left (by omega), min_eq_left hfa100]
  exact hstrict

/-- With a zero sensitive sub-score and a false dangerous-sensitive
test, only the off-hours/context multiplier of `riskTotal` can fire. -/
theorem riskTotal_nonsensitive (row : Event) (tables : List Str)
    (hd : isDangerousSensitive row tables = false)
    (sql tr cr ur pr : Nat) :
    riskTotal row tables sql tr cr 0 ur pr =
      (if 0 < tr ∧ 20 ≤ cr then
        ((sql : ℚ) * (3/10) + (tr : ℚ) * (2/10) + (cr : ℚ) * (15/100) +
          ((0 : Nat) : ℚ) * (25/100) + (ur : ℚ) * (5/100) + (pr : ℚ) * (5/100)) * (3/2)
      else
        (sql : ℚ) * (3/10) + (tr : ℚ) * (2/10) + (cr : ℚ) * (15/100) +
          ((0 : Nat) : ℚ) * (25/100) + (ur : ℚ) * (5/100) + (pr : ℚ) * (5/100)) := by
  unfold riskTotal
  have h1 : ¬((0 : Nat) < 0 ∧ 30 ≤ sql) := by simp
  have h3 : ¬((0 : Nat) < 0 ∧ 40 ≤ sql ∧ 0 < tr) := by simp
  have h4 : ¬(isDangerousSensitive row tables = true) := by simp [hd]
  dsimp only
  rw [if_neg h1, if_neg h3, if_neg h4]

/-- C7: with all other fields held equal and a non-sensitive accessed
object (so that neither the sensitive sub-score nor the
dangerous-sensitive override can fire), `"DELETE FROM T"` (no WHERE)
scores strictly higher than `"DELETE FROM T WHERE id=1"`. -/
theorem no_where_strictly_riskier (row : Event) (tables : List Str)
    (hw : row.wellFormed)
    (hsens : get_sensitive_object_risk row.Accessed_Obj tables = 0)
    (hdg : sensitiveObjMatch row.Accessed_Obj tables = false) :
    calculate_risk_score riskEngineInit
        { row with Statement := some "DELETE FROM T WHERE id=1".toList } tables <
      calculate_risk_score riskEngineInit
        { row with Statement := some "DELETE FROM T".toList } tables := by
  obtain ⟨hctx, hos, hprog, htime⟩ := hw
  obtain ⟨tr, htr, htr35⟩ := get_time_risk_ok riskEngineInit htime
  obtain ⟨cr, hcr, hcr25⟩ := get_context_risk_ok riskEngineInit hctx
  obtain ⟨ur, hur, hur25⟩ := get_user_risk_ok row.Exec_User hos
  obtain ⟨pr, hpr, hpr15⟩ := get_program_risk_ok hprog
  rw [calculate_risk_score_eval riskEngineInit
    { row with Statement := some "DELETE FROM T WHERE id=1".toList } tables htr hcr hur hpr]
  rw [calculate_risk_score_eval riskEngineInit
    { row with Statement := some "DELETE FROM T".toList } tables htr hcr hur hpr]
  have hsql1 : get_sql_operation_risk riskEngineInit
      (some "DELETE FROM T".toList) = 50 := by decide
  have hsql2 : get_sql_operation_risk riskEngineInit
      (some "DELETE FROM T WHERE id=1".toList) = 45 := by decide
  have hd1 : isDangerousSensitive
      { row with Statement := some "DELETE FROM T".toList } tables = false :=
    isDangerousSensitive_obj_false _ _ hdg
  have hd2 : isDangerousSensitive
      { row with Statement := some "DELETE FROM T WHERE id=1".toList } tables = false :=
    isDangerousSensitive_obj_false _ _ hdg
  dsimp only
  rw [hsql1, hsql2, hsens]
  rw [riskTotal_nonsensitive _ tables hd2 45 tr cr ur pr]
  rw [riskTotal_nonsensitive _ tables hd1 50 tr cr ur pr]
  have htrQ : (tr : ℚ) ≤ 35 := by exact_mod_cast htr35
  have hcrQ : (cr : ℚ) ≤ 25 := by exact_mod_cast hcr25
  have hurQ : (ur : ℚ) ≤ 25 := by exact_mod_cast hur25
  have hprQ : (pr : ℚ) ≤ 15 := by exact_mod_cast hpr15
  have htr0 : (0 : ℚ) ≤ (tr : ℚ) := Nat.cast_nonneg tr
  have hcr0 : (0 : ℚ) ≤ (cr : ℚ) := Nat.cast_nonneg cr
  have hur0 : (0 : ℚ) ≤ (ur : ℚ) := Nat.cast_nonneg ur
  have hpr0 : (0 : ℚ) ≤ (pr : ℚ) := Nat.cast_nonneg pr
  by_cases hc : 0 < tr ∧ 20 ≤ cr
  · rw [if_pos hc, if_pos hc]
    refine clampScore_strict ?_ ?_ ?_
    · push_cast
      linarith
    · push_cast
      linarith
    · push_cast
      linarith
  · rw [if_neg hc, if_neg hc]
    refine clampScore_strict ?_ ?_ ?_
    · push_cast
      linarith
    · push_cast
      linarith
    · push_cast
      linarith


theorem no_where_strictly_riskier_witness :
    calculate_risk_score riskEngineInit
        { rowC7 with Statement := some "DELETE FROM T WHERE id=1".toList } [] <
      calculate_risk_score riskEngineInit
        { rowC7 with Statement := some "DELETE FROM T".toList } [] :=
  no_where_strictly_riskier rowC7 [] (by decide) (by decide) (by decide)


theorem if_bool_true {α : Sort u_1} {b : Bool} (x y : α) (h : b = true) :
    (if b = true then x else y) = x := by rw [h]; rfl

theorem if_bool_false {α : Sort u_1} {b : Bool} (x y : α) (h : b = false) :
    (if b = true then x else y) = y := by rw [h]; rfl

/-- C4 counterexample: `"INSERT INTO DROPPED_ITEMS"` begins with the
recognized keyword INSERT (weight 15) and contains no `SELECT *`, yet
`get_sql_operation_risk` returns 50 — the weight of DROP, which occurs
earlier in the dict order as a substring of `DROPPED_ITEMS`. Matching
is containment in dict order, not the leading keyword. -/
theorem sql_operation_risk_not_leading :
    isPrefixOfB "INSERT".toList
        (stripList (upperList "INSERT INTO DROPPED_ITEMS".toList)) = true ∧
      containsB (stripList (upperList "INSERT INTO DROPPED_ITEMS".toList))
        "SELECT *".toList = false ∧
      dictGet riskEngineInit.sql_operation_weights "INSERT".toList 20 = 15 ∧
      get_sql_operation_risk riskEngineInit
        (some "INSERT INTO DROPPED_ITEMS".toList) = 50 ∧
      (50 : Nat) ≠ 15 := by
  refine ⟨by decide, by decide, by decide, by decide, by decide⟩

theorem opLoop_cons_true (op : Str) (w : Nat) (rest : List (Str × Nat))
    {u : Str} (h : containsB u op = true) : opLoop ((op, w) :: rest) u = w := by
  show (if containsB u op = true then w else opLoop rest u) = w
  rw [if_bool_true _ _ h]

theorem opLoop_cons_false (op : Str) (w : Nat) (rest : List (Str × Nat))
    {u : Str} (h : containsB u op = false) :
    opLoop ((op, w) :: rest) u = opLoop rest u := by
  show (if containsB u op = true then w else opLoop rest u) = opLoop rest u
  rw [if_bool_false _ _ h]

theorem riskEngineInit_weights :
    riskEngineInit.sql_operation_weights =
      ("DELETE".toList, 45) :: ("DROP".toList, 50) :: ("ALTER".toList, 35) ::
      ("UPDATE".toList, 30) :: ("INSERT".toList, 15) :: ("GRANT".toList, 40) ::
      ("REVOKE".toList, 35) :: ("SELECT *".toList, 25) :: ("TRUNCATE".toList, 50) ::
      ("CREATE".toList, 15) :: ("SELECT".toList, 5) :: [] := rfl

/-- C4 (amended): the SQL-operation sub-score is keyword-weight based,
but by substring containment in dict order rather than by the leading
keyword alone. For a non-empty statement whose upper-stripped text
starts with a recognized keyword, contains no `SELECT *` and contains no
other recognized keyword, the result is that keyword's configured
weight, with the capped no-WHERE penalty `min(w+15, 50)` when the
keyword is DELETE or UPDATE and no `WHERE` occurs; and a non-empty
statement containing none of the weight-dict keywords at all scores the
fixed low default 5. -/
theorem sql_operation_risk_keyword :
    (∀ s : Str, s ≠ [] → ∀ k ∈ plainKeywords,
      isPrefixOfB k (stripList (upperList s)) = true →
      (∀ k' ∈ plainKeywords, k' ≠ k →
        containsB (stripList (upperList s)) k' = false) →
      containsB (stripList (upperList s)) "SELECT *".toList = false →
      get_sql_operation_risk riskEngineInit (some s) =
        (if (k == "DELETE".toList || k == "UPDATE".toList) &&
            !containsB (stripList (upperList s)) "WHERE".toList then
          min (dictGet riskEngineInit.sql_operation_weights k 20 + 15) 50
        else dictGet riskEngineInit.sql_operation_weights k 20)) ∧
    (∀ s : Str, s ≠ [] →
      (∀ k' ∈ riskEngineInit.sql_operation_weights.map Prod.fst,
        containsB (stripList (upperList s)) k' = false) →
      get_sql_operation_risk riskEngineInit (some s) = 5) := by
  constructor
  · intro s hne k hk hpre hoth hss
    have hemp : s.isEmpty = false := by
      cases s with
      | nil => exact absurd rfl hne
      | cons a t => rfl
    have hck : containsB (stripList (upperList s)) k = true :=
      containsB_of_isPrefixOfB hpre
    unfold get_sql_operation_risk
    dsimp only
    rw [if_bool_false _ _ hemp, if_bool_false _ _ hss]
    simp only [plainKeywords, List.mem_cons, List.not_mem_nil, or_false] at hk
    set u := stripList (upperList s) with hu
    rcases hk with rfl | rfl | rfl | rfl | rfl | rfl | rfl | rfl | rfl | rfl
    · -- DELETE
      cases hw : containsB u "WHERE".toList with
      | false =>
        have hbL : ((containsB u "DELETE".toList || containsB u "UPDATE".toList) &&
            !false) = true := by
          rw [hck]
          rfl
        have hbR : (("DELETE".toList == "DELETE".toList ||
            "DELETE".toList == "UPDATE".toList) && !false) = true := by decide
        rw [if_bool_true _ _ hbL, if_bool_true _ _ hbR, if_bool_true _ _ hck]
      | true =>
        have hbL : ((containsB u "DELETE".toList || containsB u "UPDATE".toList) &&
            !true) = false := by
          rw [hck]
          rfl
        have hbR : (("DELETE".toList == "DELETE".toList ||
            "DELETE".toList == "UPDATE".toList) && !true) = false := by decide
        rw [if_bool_false _ _ hbL, if_bool_false _ _ hbR, riskEngineInit_weights,
          opLoop_cons_true _ _ _ hck]
        decide
    · -- DROP
      have c1 : containsB u "DELETE".toList = false := hoth _ (by decide) (by decide)
      have c4 : containsB u "UPDATE".toList = false := hoth _ (by decide) (by decide)
      have hbL : ((containsB u "DELETE".toList || containsB u "UPDATE".toList) &&
          !containsB u "WHERE".toList) = false := by
        rw [c1, c4]
        rfl
      have hbR : (("DROP".toList == "DELETE".toList ||
          "DROP".toList == "UPDATE".toList) && !containsB u "WHERE".toList) = false := by
        rw [show (("DROP".toList == "DELETE".toList ||
          "DROP".toList == "UPDATE".toList) : Bool) = false from by decide]
        rfl
      rw [if_bool_false _ _ hbL, if_bool_false _ _ hbR, riskEngineInit_weights,
        opLoop_cons_false _ _ _ c1, opLoop_cons_true _ _ _ hck]
      decide
    · -- ALTER
      have c1 : containsB u "DELETE".toList = false := hoth _ (by decide) (by decide)
      have c2 : containsB u "DROP".toList = false := hoth _ (by decide) (by decide)
      have c4 : containsB u "UPDATE".toList = false := hoth _ (by decide) (by decide)
      have hbL : ((containsB u "DELETE".toList || containsB u "UPDATE".toList) &&
          !containsB u "WHERE".toList) = false := by
        rw [c1, c4]
        rfl
      have hbR : (("ALTER".toList == "DELETE".toList ||
          "ALTER".toList == "UPDATE".toList) && !containsB u "WHERE".toList) = false := by
        rw [show (("ALTER".toList == "DELETE".toList ||
          "ALTER".toList == "UPDATE".toList) : Bool) = false from by decide]
        rfl
      rw [if_bool_false _ _ hbL, if_bool_false _ _ hbR, riskEngineInit_weights,
        opLoop_cons_false _ _ _ c1, opLoop_cons_false _ _ _ c2, opLoop_cons_true _ _ _ hck]
      decide
    · -- UPDATE
      have c1 : containsB u "DELETE".toList = false := hoth _ (by decide) (by decide)
      have c2 : containsB u "DROP".toList = false := hoth _ (by decide) (by decide)
      have c3 : containsB u "ALTER".toList = false := hoth _ (by decide) (by decide)
      cases hw : containsB u "WHERE".toList with
      | false =>
        have hbL : ((containsB u "DELETE".toList || containsB u "UPDATE".toList) &&
            !false) = true := by
          rw [c1, hck]
          rfl
        have hbR : (("UPDATE".toList == "DELETE".toList ||
            "UPDATE".toList == "UPDATE".toList) && !false) = true := by decide
        rw [if_bool_true _ _ hbL, if_bool_true _ _ hbR, if_bool_false _ _ c1]
      | true =>
        have hbL : ((containsB u "DELETE".toList || containsB u "UPDATE".toList) &&
            !true) = false := by
          rw [c1, hck]
          rfl
        have hbR : (("UPDATE".toList == "DELETE".toList ||
            "UPDATE".toList == "UPDATE".toList) && !true) = false := by decide
        rw [if_bool_false _ _ hbL, if_bool_false _ _ hbR, riskEngineInit_weights,
          opLoop_cons_false _ _ _ c1, opLoop_cons_false _ _ _ c2,
          opLoop_cons_false _ _ _ c3, opLoop_cons_true _ _ _ hck]
        decide
    · -- INSERT
      have c1 : containsB u "DELETE".toList = false := hoth _ (by decide) (by decide)
      have c2 : containsB u "DROP".toList = false := hoth _ (by decide) (by decide)
      have c3 : containsB u "ALTER".toList = false := hoth _ (by decide) (by decide)
      have c4 : containsB u "UPDATE".toList = false := hoth _ (by decide) (by decide)
      have hbL : ((containsB u "DELETE".toList || containsB u "UPDATE".toList) &&
          !containsB u "WHERE".toList) = false := by
        rw [c1, c4]
        rfl
      have hbR : (("INSERT".toList == "DELETE".toList ||
          "INSERT".toList == "UPDATE".toList) && !containsB u "WHERE".toList) = false := by
        rw [show (("INSERT".toList == "DELETE".toList ||
          "INSERT".toList == "UPDATE".toList) : Bool) = false from by decide]
        rfl
      rw [if_bool_false _ _ hbL, if_bool_false _ _ hbR, riskEngineInit_weights,
        opLoop_cons_false _ _ _ c1, opLoop_cons_false _ _ _ c2,
        opLoop_cons_false _ _ _ c3, opLoop_cons_false _ _ _ c4, opLoop_cons_true _ _ _ hck]
      decide
    · -- GRANT
      have c1 : containsB u "DELETE".toList = false := hoth _ (by decide) (by decide)
      have c2 : containsB u "DROP".toList = false := hoth _ (by decide) (by decide)
      have c3 : containsB u "ALTER".toList = false := hoth _ (by decide) (by decide)
      have c4 : containsB u "UPDATE".toList = false := hoth _ (by decide) (by decide)
      have c5 : containsB u "INSERT".toList = false := hoth _ (by decide) (by decide)
      have hbL : ((containsB u "DELETE".toList || containsB u "UPDATE".toList) &&
          !containsB u "WHERE".toList) = false := by
        rw [c1, c4]
        rfl
      have hbR : (("GRANT".toList == "DELETE".toList ||
          "GRANT".toList == "UPDATE".toList) && !containsB u "WHERE".toList) = false := by
        rw [show (("GRANT".toList == "DELETE".toList ||
          "GRANT".toList == "UPDATE".toList) : Bool) = false from by decide]
        rfl
      rw [if_bool_false _ _ hbL, if_bool_false _ _ hbR, riskEngineInit_weights,
        opLoop_cons_false _ _ _ c1, opLoop_cons_false _ _ _ c2,
        opLoop_cons_false _ _ _ c3, opLoop_cons_false _ _ _ c4,
        opLoop_cons_false _ _ _ c5, opLoop_cons_true _ _ _ hck]
      decide
    · -- REVOKE
      have c1 : containsB u "DELETE".toList = false := hoth _ (by decide) (by decide)
      have c2 : containsB u "DROP".toList = false := hoth _ (by decide) (by decide)
      have c3 : containsB u "ALTER".toList = false := hoth _ (by decide) (by decide)
      have c4 : containsB u "UPDATE".toList = false := hoth _ (by decide) (by decide)
      have c5 : containsB u "INSERT".toList = false := hoth _ (by decide) (by decide)
      have c6 : containsB u "GRANT".toList = false := hoth _ (by decide) (by decide)
      have hbL : ((containsB u "DELETE".toList || containsB u "UPDATE".toList) &&
          !containsB u "WHERE".toList) = false := by
        rw [c1, c4]
        rfl
      have hbR : (("REVOKE".toList == "DELETE".toList ||
          "REVOKE".toList == "UPDATE".toList) && !containsB u "WHERE".toList) = false := by
        rw [show (("REVOKE".toList == "DELETE".toList ||
          "REVOKE".toList == "UPDATE".toList) : Bool) = false from by decide]
        rfl
      rw [if_bool_false _ _ hbL, if_bool_false _ _ hbR, riskEngineInit_weights,
        opLoop_cons_false _ _ _ c1, opLoop_cons_false _ _ _ c2,
        opLoop_cons_false _ _ _ c3, opLoop_cons_false _ _ _ c4,
        opLoop_cons_false _ _ _ c5, opLoop_cons_false _ _ _ c6, opLoop_cons_true _ _ _ hck]
      decide
    · -- TRUNCATE
      have c1 : containsB u "DELETE".toList = false := hoth _ (by decide) (by decide)
      have c2 : containsB u "DROP".toList = false := hoth _ (by decide) (by decide)
      have c3 : containsB u "ALTER".toList = false := hoth _ (by decide) (by decide)
      have c4 : containsB u "UPDATE".toList = false := hoth _ (by decide) (by decide)
      have c5 : containsB u "INSERT".toList = false := hoth _ (by decide) (by decide)
      have c6 : containsB u "GRANT".toList = false := hoth _ (by decide) (by decide)
      have c7 : containsB u "REVOKE".toList = false := hoth _ (by decide) (by decide)
      have hbL : ((containsB u "DELETE".toList || containsB u "UPDATE".toList) &&
          !containsB u "WHERE".toList) = false := by
        rw [c1, c4]
        rfl
      have hbR : (("TRUNCATE".toList == "DELETE".toList ||
          "TRUNCATE".toList == "UPDATE".toList) && !containsB u "WHERE".toList) = false := by
        rw [show (("TRUNCATE".toList == "DELETE".toList ||
          "TRUNCATE".toList == "UPDATE".toList) : Bool) = false from by decide]
        rfl
      rw [if_bool_false _ _ hbL, if_bool_false _ _ hbR, riskEngineInit_weights,
        opLoop_cons_false _ _ _ c1, opLoop_cons_false _ _ _ c2,
        opLoop_cons_false _ _ _ c3, opLoop_cons_false _ _ _ c4,
        opLoop_cons_false _ _ _ c5, opLoop_cons_false _ _ _ c6,
        opLoop_cons_false _ _ _ c7, opLoop_cons_false _ _ _ hss, opLoop_cons_true _ _ _ hck]
      decide
    · -- CREATE
      have c1 : containsB u "DELETE".toList = false := hoth _ (by decide) (by decide)
      have c2 : containsB u "DROP".toList = false := hoth _ (by decide) (by decide)
      have c3 : containsB u "ALTER".toList = false := hoth _ (by decide) (by decide)
      have c4 : containsB u "UPDATE".toList = false := hoth _ (by decide) (by decide)
      have c5 : containsB u "INSERT".toList = false := hoth _ (by decide) (by decide)
      have c6 : containsB u "GRANT".toList = false := hoth _ (by decide) (by decide)
      have c7 : containsB u "REVOKE".toList = false := hoth _ (by decide) (by decide)
      have c8 : containsB u "TRUNCATE".toList = false := hoth _ (by decide) (by decide)
      have hbL : ((containsB u "DELETE".toList || containsB u "UPDATE".toList) &&
          !containsB u "WHERE".toList) = false := by
        rw [c1, c4]
        rfl
      have hbR : (("CREATE".toList == "DELETE".toList ||
          "CREATE".toList == "UPDATE".toList) && !containsB u "WHERE".toList) = false := by
        rw [show (("CREATE".toList == "DELETE".toList ||
          "CREATE".toList == "UPDATE".toList) : Bool) = false from by decide]
        rfl
      rw [if_bool_false _ _ hbL, if_bool_false _ _ hbR, riskEngineInit_weights,
        opLoop_cons_false _ _ _ c1, opLoop_cons_false _ _ _ c2,
        opLoop_cons_false _ _ _ c3, opLoop_cons_false _ _ _ c4,
        opLoop_cons_false _ _ _ c5, opLoop_cons_false _ _ _ c6,
        opLoop_cons_false _ _ _ c7, opLoop_cons_false _ _ _ hss,
        opLoop_cons_false _ _ _ c8, opLoop_cons_true _ _ _ hck]
      decide
    · -- SELECT
      have c1 : containsB u "DELETE".toList = false := hoth _ (by decide) (by decide)
      have c2 : containsB u "DROP".toList = false := hoth _ (by decide) (by decide)
      have c3 : containsB u "ALTER".toList = false := hoth _ (by decide) (by decide)
      have c4 : containsB u "UPDATE".toList = false := hoth _ (by decide) (by decide)
      have c5 : containsB u "INSERT".toList = false := hoth _ (by decide) (by decide)
      have c6 : containsB u "GRANT".toList = false := hoth _ (by decide) (by decide)
      have c7 : containsB u "REVOKE".toList = false := hoth _ (by decide) (by decide)
      have c8 : containsB u "TRUNCATE".toList = false := hoth _ (by decide) (by decide)
      have c9 : containsB u "CREATE".toList = false := hoth _ (by decide) (by decide)
      have hbL : ((containsB u "DELETE".toList || containsB u "UPDATE".toList) &&
          !containsB u "WHERE".toList) = false := by
        rw [c1, c4]
        rfl
      have hbR : (("SELECT".toList == "DELETE".toList ||
          "SELECT".toList == "UPDATE".toList) && !containsB u "WHERE".toList) = false := by
        rw [show (("SELECT".toList == "DELETE".toList ||
          "SELECT".toList == "UPDATE".toList) : Bool) = false from by decide]
        rfl
      rw [if_bool_false _ _ hbL, if_bool_false _ _ hbR, riskEngineInit_weights,
        opLoop_cons_false _ _ _ c1, opLoop_cons_false _ _ _ c2,
        opLoop_cons_false _ _ _ c3, opLoop_cons_false _ _ _ c4,
        opLoop_cons_false _ _ _ c5, opLoop_cons_false _ _ _ c6,
        opLoop_cons_false _ _ _ c7, opLoop_cons_false _ _ _ hss,
        opLoop_cons_false _ _ _ c8, opLoop_cons_false _ _ _ c9, opLoop_cons_true _ _ _ hck]
      decide
  · intro s hne hnone
    have hemp : s.isEmpty = false := by
      cases s with
      | nil => exact absurd rfl hne
      | cons a t => rfl
    have c01 : containsB (stripList (upperList s)) "DELETE".toList = false :=
      hnone _ (by decide)
    have c02 : containsB (stripList (upperList s)) "DROP".toList = false :=
      hnone _ (by decide)
    have c03 : containsB (stripList (upperList s)) "ALTER".toList = false :=
      hnone _ (by decide)
    have c04 : containsB (stripList (upperList s)) "UPDATE".toList = false :=
      hnone _ (by decide)
    have c05 : containsB (stripList (upperList s)) "INSERT".toList = false :=
      hnone _ (by decide)
    have c06 : containsB (stripList (upperList s)) "GRANT".toList = false :=
      hnone _ (by decide)
    have c07 : containsB (stripList (upperList s)) "REVOKE".toList = false :=
      hnone _ (by decide)
    have c08 : containsB (stripList (upperList s)) "SELECT *".toList = false :=
      hnone _ (by decide)
    have c09 : containsB (stripList (upperList s)) "TRUNCATE".toList = false :=
      hnone _ (by decide)
    have c10 : containsB (stripList (upperList s)) "CREATE".toList = false :=
      hnone _ (by decide)
    have c11 : containsB (stripList (upperList s)) "SELECT".toList = false :=
      hnone _ (by decide)
    unfold get_sql_operation_risk
    dsimp only
    rw [if_bool_false _ _ hemp, if_bool_false _ _ c08]
    have hbL : ((containsB (stripList (upperList s)) "DELETE".toList ||
        containsB (stripList (upperList s)) "UPDATE".toList) &&
        !containsB (stripList (upperList s)) "WHERE".toList) = false := by
      rw [c01, c04]
      rfl
    rw [if_bool_false _ _ hbL, riskEngineInit_weights,
      opLoop_cons_false _ _ _ c01, opLoop_cons_false _ _ _ c02,
      opLoop_cons_false _ _ _ c03, opLoop_cons_false _ _ _ c04,
      opLoop_cons_false _ _ _ c05, opLoop_cons_false _ _ _ c06,
      opLoop_cons_false _ _ _ c07, opLoop_cons_false _ _ _ c08,
      opLoop_cons_false _ _ _ c09, opLoop_cons_false _ _ _ c10,
      opLoop_cons_false _ _ _ c11]
    rfl

theorem sql_operation_risk_keyword_witness :
    get_sql_operation_risk riskEngineInit (some "DROP TABLE X".toList) =
        dictGet riskEngineInit.sql_operation_weights "DROP".toList 20 ∧
      get_sql_operation_risk riskEngineInit (some "EXEC SP_HELP".toList) = 5 := by
  constructor
  · have h := sql_operation_risk_keyword.1 "DROP TABLE X".toList (by decide)
      "DROP".toList (by decide) (by decide) (by decide) (by decide)
    rw [h, if_bool_false _ _ (by decide)]
  · exact sql_operation_risk_keyword.2 "EXEC SP_HELP".toList (by decide) (by decide)
